import Mathlib

/-!
Verification of the netobserv eBPF agent configuration handling
(`pkg/agent/config.go`) and of the generated deep-copy functions of the
operator's `api/v1alpha1` package, together with spec-modelled components
of the agent pipeline (accounting cache, deduplicator expiry, exporter
queue sizing, gRPC batch splitting) whose implementation files are not
part of the staged sources.

Conventions of the shallow embedding:
* Go `int` and `time.Duration` (an `int64` of nanoseconds) are embedded as
  `Int`; Go `uint16` as `Nat`; Go strings as `String`; Go slices as
  `List`; Go maps as association lists; Go pointers as `Option`.
* Stateful Go functions that mutate a struct through a pointer are
  embedded as pure functions from the struct value to the struct value.
-/

namespace Agent

/-- Configuration of the flows agent, embedding the Go struct `Config` of
`pkg/agent/config.go` field by field, in source order.  Environment-tag
metadata is dropped; only the fields and their types are kept. -/
structure Config where
  AgentIP : String
  AgentIPIface : String
  AgentIPType : String
  Export : String
  TargetHost : String
  TargetPort : Int
  GRPCMessageMaxFlows : Int
  Interfaces : List String
  ExcludeInterfaces : List String
  BuffersLength : Int
  InterfaceIPs : List String
  ExporterBufferLength : Int
  CacheMaxFlows : Int
  CacheActiveTimeout : Int
  Deduper : String
  DeduperFCExpiry : Int
  DeduperJustMark : Bool
  DeduperMerge : Bool
  Direction : String
  LogLevel : String
  Sampling : Int
  ListenInterfaces : String
  ListenPollPeriod : Int
  KafkaBrokers : List String
  KafkaTopic : String
  KafkaBatchMessages : Int
  KafkaBatchSize : Int
  KafkaAsync : Bool
  KafkaCompression : String
  KafkaEnableTLS : Bool
  KafkaTLSInsecureSkipVerify : Bool
  KafkaTLSCACertPath : String
  KafkaTLSUserCertPath : String
  KafkaTLSUserKeyPath : String
  KafkaEnableSASL : Bool
  KafkaSASLType : String
  KafkaSASLClientIDPath : String
  KafkaSASLClientSecretPath : String
  ProfilePort : Int
  FLPConfig : String
  EnableRTT : Bool
  ForceGC : Bool
  EnablePktDrops : Bool
  EnableDNSTracking : Bool
  DNSTrackingPort : Nat
  StaleEntriesEvictTimeout : Int
  EnablePCA : Bool
  MetricsEnable : Bool
  MetricsServerAddress : String
  MetricsPort : Int
  MetricsTLSCertPath : String
  MetricsTLSKeyPath : String
  MetricsPrefix : String
  EnableFlowFilter : Bool
  FlowFilterRules : String
  EnableNetworkEventsMonitoring : Bool
  NetworkEventsMonitoringGroupID : Int
  EnablePktTranslationTracking : Bool
  EbpfProgramManagerMode : Bool
  BpfManBpfFSPath : String
  FlowsTargetHost : String
  FlowsTargetPort : Int
  PCAServerPort : Int

/-- First statement block of `manageDeprecatedConfigs`: when the deprecated
`FlowsTargetHost` has non-zero length it is copied into `TargetHost`
(Go: `if len(cfg.FlowsTargetHost) != 0 { cfg.TargetHost = cfg.FlowsTargetHost }`). -/
def manageDeprecatedHost (cfg : Config) : Config :=
  if cfg.FlowsTargetHost.length ≠ 0 then { cfg with TargetHost := cfg.FlowsTargetHost }
  else cfg

/-- Second statement block of `manageDeprecatedConfigs`: a non-zero deprecated
`FlowsTargetPort` is copied into `TargetPort`; otherwise a non-zero deprecated
`PCAServerPort` is copied into `TargetPort`; otherwise nothing changes. -/
def manageDeprecatedPort (cfg : Config) : Config :=
  if cfg.FlowsTargetPort ≠ 0 then { cfg with TargetPort := cfg.FlowsTargetPort }
  else if cfg.PCAServerPort ≠ 0 then { cfg with TargetPort := cfg.PCAServerPort }
  else cfg

/-- Embedding of `manageDeprecatedConfigs` from `pkg/agent/config.go`:
the host block runs first, then the port block, on the mutated value. -/
def manageDeprecatedConfigs (cfg : Config) : Config :=
  manageDeprecatedPort (manageDeprecatedHost cfg)

/-- Baseline configuration value used to build concrete test inputs; its
values follow the `envDefault` tags of the Go struct where one is given
(durations in nanoseconds), and are zero values elsewhere. -/
def zeroConfig : Config where
  AgentIP := ""
  AgentIPIface := "external"
  AgentIPType := "any"
  Export := "grpc"
  TargetHost := ""
  TargetPort := 0
  GRPCMessageMaxFlows := 10000
  Interfaces := []
  ExcludeInterfaces := ["lo"]
  BuffersLength := 50
  InterfaceIPs := []
  ExporterBufferLength := 0
  CacheMaxFlows := 5000
  CacheActiveTimeout := 5000000000
  Deduper := "none"
  DeduperFCExpiry := 0
  DeduperJustMark := false
  DeduperMerge := true
  Direction := "both"
  LogLevel := "info"
  Sampling := 0
  ListenInterfaces := "watch"
  ListenPollPeriod := 10000000000
  KafkaBrokers := []
  KafkaTopic := "network-flows"
  KafkaBatchMessages := 1000
  KafkaBatchSize := 1048576
  KafkaAsync := true
  KafkaCompression := "none"
  KafkaEnableTLS := false
  KafkaTLSInsecureSkipVerify := false
  KafkaTLSCACertPath := ""
  KafkaTLSUserCertPath := ""
  KafkaTLSUserKeyPath := ""
  KafkaEnableSASL := false
  KafkaSASLType := "plain"
  KafkaSASLClientIDPath := ""
  KafkaSASLClientSecretPath := ""
  ProfilePort := 0
  FLPConfig := ""
  EnableRTT := false
  ForceGC := true
  EnablePktDrops := false
  EnableDNSTracking := false
  DNSTrackingPort := 53
  StaleEntriesEvictTimeout := 5000000000
  EnablePCA := false
  MetricsEnable := false
  MetricsServerAddress := ""
  MetricsPort := 9090
  MetricsTLSCertPath := ""
  MetricsTLSKeyPath := ""
  MetricsPrefix := "ebpf_agent_"
  EnableFlowFilter := false
  FlowFilterRules := ""
  EnableNetworkEventsMonitoring := false
  NetworkEventsMonitoringGroupID := 10
  EnablePktTranslationTracking := false
  EbpfProgramManagerMode := false
  BpfManBpfFSPath := "/run/netobserv/maps"
  FlowsTargetHost := ""
  FlowsTargetPort := 0
  PCAServerPort := 0

/-- Concrete input for the spec's legacy-port scenario: both primary port
fields unset, deprecated `PCAServerPort` populated with `9999`. -/
def cfgLegacyPort : Config := { zeroConfig with PCAServerPort := 9999 }

/-- Concrete input with the deprecated `FlowsTargetHost` populated and the
primary `TargetHost` unset. -/
def cfgLegacyHost : Config := { zeroConfig with FlowsTargetHost := "A" }

/-- Concrete input with the primary `TargetPort` already set to `2055` while
`FlowsTargetPort` is zero and `PCAServerPort` is `9999`. -/
def cfgPortBoth : Config :=
  { zeroConfig with TargetPort := 2055, PCAServerPort := 9999 }

end Agent

namespace Agent

/-- Helper: a string has length zero exactly when it is the empty string;
this links Go's `len(s) != 0` test to emptiness of the string. -/
theorem string_length_eq_zero_iff (s : String) : s.length = 0 ↔ s = "" := by
  constructor
  · intro h
    cases s with
    | mk data =>
      cases data with
      | nil => rfl
      | cons a l => simp [String.length] at h
  · intro h
    subst h
    rfl

/-- C1: after `manageDeprecatedConfigs` the resolved target port is the first
populated legacy port alias in fixed priority order: a non-zero
`FlowsTargetPort` wins, otherwise a non-zero `PCAServerPort` wins. -/
theorem targetPort_prefers_legacy_aliases (cfg : Config) :
    (cfg.FlowsTargetPort ≠ 0 →
      (manageDeprecatedConfigs cfg).TargetPort = cfg.FlowsTargetPort) ∧
    (cfg.FlowsTargetPort = 0 → cfg.PCAServerPort ≠ 0 →
      (manageDeprecatedConfigs cfg).TargetPort = cfg.PCAServerPort) := by
  unfold manageDeprecatedConfigs manageDeprecatedPort manageDeprecatedHost
  by_cases h1 : cfg.FlowsTargetHost.length ≠ 0 <;>
    by_cases h2 : cfg.FlowsTargetPort ≠ 0 <;>
      by_cases h3 : cfg.PCAServerPort ≠ 0 <;>
        simp_all

/-- Witness for C1 at the spec's concrete input: `FlowsTargetPort = 0`,
`PCAServerPort = 9999`, primary `TargetPort` initially `0`; the resolved
port is `9999`. -/
theorem targetPort_prefers_legacy_aliases_witness :
    (manageDeprecatedConfigs cfgLegacyPort).TargetPort = 9999 :=
  (targetPort_prefers_legacy_aliases cfgLegacyPort).2 (by decide) (by decide)

/-- C2: after `manageDeprecatedConfigs` a non-empty deprecated
`FlowsTargetHost` overrides the primary `TargetHost`, and an empty
`FlowsTargetHost` leaves `TargetHost` unchanged. -/
theorem targetHost_overridden_by_flowsTargetHost (cfg : Config) :
    (cfg.FlowsTargetHost ≠ "" →
      (manageDeprecatedConfigs cfg).TargetHost = cfg.FlowsTargetHost) ∧
    (cfg.FlowsTargetHost = "" →
      (manageDeprecatedConfigs cfg).TargetHost = cfg.TargetHost) := by
  unfold manageDeprecatedConfigs manageDeprecatedPort manageDeprecatedHost
  by_cases h1 : cfg.FlowsTargetHost.length ≠ 0 <;>
    by_cases h2 : cfg.FlowsTargetPort ≠ 0 <;>
      by_cases h3 : cfg.PCAServerPort ≠ 0 <;>
        simp_all [string_length_eq_zero_iff]

/-- Witness for C2 at the spec's concrete input: legacy host `"A"`, primary
host unset; the resolved host is `"A"`. -/
theorem targetHost_overridden_witness :
    (manageDeprecatedConfigs cfgLegacyHost).TargetHost = "A" :=
  (targetHost_overridden_by_flowsTargetHost cfgLegacyHost).1 (by decide)

/-- Counterexample to C3 as stated: with `FlowsTargetPort = 0`,
`PCAServerPort = 9999` and the primary `TargetPort` already set to `2055`,
`manageDeprecatedConfigs` does not leave the resolved port equal to the
primary value: it overwrites it with `9999`. -/
theorem pcaServerPort_overrides_set_targetPort :
    (manageDeprecatedConfigs cfgPortBoth).TargetPort = 9999 ∧
    cfgPortBoth.TargetPort = 2055 ∧ (9999 : Int) ≠ 2055 := by
  refine ⟨by decide, by decide, by decide⟩

/-- C3 amended: the fallback to `PCAServerPort` applies whenever
`FlowsTargetPort` is zero and `PCAServerPort` is non-zero, regardless of any
value already present in the primary `TargetPort` field. -/
theorem pcaServerPort_fallback_ignores_primary (cfg : Config)
    (h1 : cfg.FlowsTargetPort = 0) (h2 : cfg.PCAServerPort ≠ 0) :
    (manageDeprecatedConfigs cfg).TargetPort = cfg.PCAServerPort := by
  unfold manageDeprecatedConfigs manageDeprecatedPort manageDeprecatedHost
  by_cases hh : cfg.FlowsTargetHost.length ≠ 0 <;> simp_all

/-- Witness for the amended C3 at the counterexample's concrete input. -/
theorem pcaServerPort_fallback_witness :
    (manageDeprecatedConfigs cfgPortBoth).TargetPort = 9999 :=
  pcaServerPort_fallback_ignores_primary cfgPortBoth (by decide) (by decide)

/-- C8 (frame): `manageDeprecatedConfigs` modifies at most `TargetHost` and
`TargetPort`; every other field of the configuration, the three deprecated
fields included, is returned unchanged. -/
theorem manageDeprecatedConfigs_frame (cfg : Config) :
    (manageDeprecatedConfigs cfg).AgentIP = cfg.AgentIP ∧
    (manageDeprecatedConfigs cfg).AgentIPIface = cfg.AgentIPIface ∧
    (manageDeprecatedConfigs cfg).AgentIPType = cfg.AgentIPType ∧
    (manageDeprecatedConfigs cfg).Export = cfg.Export ∧
    (manageDeprecatedConfigs cfg).GRPCMessageMaxFlows = cfg.GRPCMessageMaxFlows ∧
    (manageDeprecatedConfigs cfg).Interfaces = cfg.Interfaces ∧
    (manageDeprecatedConfigs cfg).ExcludeInterfaces = cfg.ExcludeInterfaces ∧
    (manageDeprecatedConfigs cfg).BuffersLength = cfg.BuffersLength ∧
    (manageDeprecatedConfigs cfg).InterfaceIPs = cfg.InterfaceIPs ∧
    (manageDeprecatedConfigs cfg).ExporterBufferLength = cfg.ExporterBufferLength ∧
    (manageDeprecatedConfigs cfg).CacheMaxFlows = cfg.CacheMaxFlows ∧
    (manageDeprecatedConfigs cfg).CacheActiveTimeout = cfg.CacheActiveTimeout ∧
    (manageDeprecatedConfigs cfg).Deduper = cfg.Deduper ∧
    (manageDeprecatedConfigs cfg).DeduperFCExpiry = cfg.DeduperFCExpiry ∧
    (manageDeprecatedConfigs cfg).DeduperJustMark = cfg.DeduperJustMark ∧
    (manageDeprecatedConfigs cfg).DeduperMerge = cfg.DeduperMerge ∧
    (manageDeprecatedConfigs cfg).Direction = cfg.Direction ∧
    (manageDeprecatedConfigs cfg).LogLevel = cfg.LogLevel ∧
    (manageDeprecatedConfigs cfg).Sampling = cfg.Sampling ∧
    (manageDeprecatedConfigs cfg).ListenInterfaces = cfg.ListenInterfaces ∧
    (manageDeprecatedConfigs cfg).ListenPollPeriod = cfg.ListenPollPeriod ∧
    (manageDeprecatedConfigs cfg).KafkaBrokers = cfg.KafkaBrokers ∧
    (manageDeprecatedConfigs cfg).KafkaTopic = cfg.KafkaTopic ∧
    (manageDeprecatedConfigs cfg).KafkaBatchMessages = cfg.KafkaBatchMessages ∧
    (manageDeprecatedConfigs cfg).KafkaBatchSize = cfg.KafkaBatchSize ∧
    (manageDeprecatedConfigs cfg).KafkaAsync = cfg.KafkaAsync ∧
    (manageDeprecatedConfigs cfg).KafkaCompression = cfg.KafkaCompression ∧
    (manageDeprecatedConfigs cfg).KafkaEnableTLS = cfg.KafkaEnableTLS ∧
    (manageDeprecatedConfigs cfg).KafkaTLSInsecureSkipVerify = cfg.KafkaTLSInsecureSkipVerify ∧
    (manageDeprecatedConfigs cfg).KafkaTLSCACertPath = cfg.KafkaTLSCACertPath ∧
    (manageDeprecatedConfigs cfg).KafkaTLSUserCertPath = cfg.KafkaTLSUserCertPath ∧
    (manageDeprecatedConfigs cfg).KafkaTLSUserKeyPath = cfg.KafkaTLSUserKeyPath ∧
    (manageDeprecatedConfigs cfg).KafkaEnableSASL = cfg.KafkaEnableSASL ∧
    (manageDeprecatedConfigs cfg).KafkaSASLType = cfg.KafkaSASLType ∧
    (manageDeprecatedConfigs cfg).KafkaSASLClientIDPath = cfg.KafkaSASLClientIDPath ∧
    (manageDeprecatedConfigs cfg).KafkaSASLClientSecretPath = cfg.KafkaSASLClientSecretPath ∧
    (manageDeprecatedConfigs cfg).ProfilePort = cfg.ProfilePort ∧
    (manageDeprecatedConfigs cfg).FLPConfig = cfg.FLPConfig ∧
    (manageDeprecatedConfigs cfg).EnableRTT = cfg.EnableRTT ∧
    (manageDeprecatedConfigs cfg).ForceGC = cfg.ForceGC ∧
    (manageDeprecatedConfigs cfg).EnablePktDrops = cfg.EnablePktDrops ∧
    (manageDeprecatedConfigs cfg).EnableDNSTracking = cfg.EnableDNSTracking ∧
    (manageDeprecatedConfigs cfg).DNSTrackingPort = cfg.DNSTrackingPort ∧
    (manageDeprecatedConfigs cfg).StaleEntriesEvictTimeout = cfg.StaleEntriesEvictTimeout ∧
    (manageDeprecatedConfigs cfg).EnablePCA = cfg.EnablePCA ∧
    (manageDeprecatedConfigs cfg).MetricsEnable = cfg.MetricsEnable ∧
    (manageDeprecatedConfigs cfg).MetricsServerAddress = cfg.MetricsServerAddress ∧
    (manageDeprecatedConfigs cfg).MetricsPort = cfg.MetricsPort ∧
    (manageDeprecatedConfigs cfg).MetricsTLSCertPath = cfg.MetricsTLSCertPath ∧
    (manageDeprecatedConfigs cfg).MetricsTLSKeyPath = cfg.MetricsTLSKeyPath ∧
    Config.MetricsPrefix (manageDeprecatedConfigs cfg) = Config.MetricsPrefix cfg ∧
    (manageDeprecatedConfigs cfg).EnableFlowFilter = cfg.EnableFlowFilter ∧
    (manageDeprecatedConfigs cfg).FlowFilterRules = cfg.FlowFilterRules ∧
    (manageDeprecatedConfigs cfg).EnableNetworkEventsMonitoring = cfg.EnableNetworkEventsMonitoring ∧
    (manageDeprecatedConfigs cfg).NetworkEventsMonitoringGroupID = cfg.NetworkEventsMonitoringGroupID ∧
    (manageDeprecatedConfigs cfg).EnablePktTranslationTracking = cfg.EnablePktTranslationTracking ∧
    (manageDeprecatedConfigs cfg).EbpfProgramManagerMode = cfg.EbpfProgramManagerMode ∧
    (manageDeprecatedConfigs cfg).BpfManBpfFSPath = cfg.BpfManBpfFSPath ∧
    (manageDeprecatedConfigs cfg).FlowsTargetHost = cfg.FlowsTargetHost ∧
    (manageDeprecatedConfigs cfg).FlowsTargetPort = cfg.FlowsTargetPort ∧
    (manageDeprecatedConfigs cfg).PCAServerPort = cfg.PCAServerPort := by
  unfold manageDeprecatedConfigs manageDeprecatedPort manageDeprecatedHost
  by_cases h1 : cfg.FlowsTargetHost.length ≠ 0 <;>
    by_cases h2 : cfg.FlowsTargetPort ≠ 0 <;>
      by_cases h3 : cfg.PCAServerPort ≠ 0 <;>
        simp_all

/-- C9: `manageDeprecatedConfigs` is idempotent: applying it twice yields the
same configuration as applying it once. -/
theorem manageDeprecatedConfigs_idempotent (cfg : Config) :
    manageDeprecatedConfigs (manageDeprecatedConfigs cfg) =
      manageDeprecatedConfigs cfg := by
  unfold manageDeprecatedConfigs manageDeprecatedPort manageDeprecatedHost
  by_cases h1 : cfg.FlowsTargetHost.length ≠ 0 <;>
    by_cases h2 : cfg.FlowsTargetPort ≠ 0 <;>
      by_cases h3 : cfg.PCAServerPort ≠ 0 <;>
        simp_all

end Agent

namespace Agent

/-- Modelled from the spec: the identity of a flow, a 5-tuple plus interface
identifier and direction (spec section 3, FlowKey). -/
structure FlowKey where
  srcAddr : Nat
  dstAddr : Nat
  srcPort : Nat
  dstPort : Nat
  protocol : Nat
  iface : Nat
  direction : Nat
deriving DecidableEq

/-- Modelled from the spec: one observation from the capture source, a
FlowKey with a timestamp and byte/packet deltas (spec section 3, RawEvent). -/
structure RawEvent where
  key : FlowKey
  ts : Nat
  bytes : Nat
  packets : Nat
deriving DecidableEq

/-- Modelled from the spec: a per-FlowKey accumulator with aggregated
counters and first/last-seen timestamps (spec section 3, AccountedFlow). -/
structure AccountedFlow where
  key : FlowKey
  startTime : Nat
  endTime : Nat
  bytes : Nat
  packets : Nat
deriving DecidableEq

/-- Modelled from the spec: the state of the Accounting Cache, its live
entries plus the entries already pushed to the export queue. -/
structure CacheState where
  entries : List AccountedFlow
  exported : List AccountedFlow
deriving DecidableEq

/-- Empty Accounting Cache. -/
def initialCache : CacheState := { entries := [], exported := [] }

/-- Modelled from the spec: merging one admitted event into the existing
accumulator for its key (counters summed, last-seen updated). -/
def mergeEvent (af : AccountedFlow) (ev : RawEvent) : AccountedFlow :=
  { af with
    endTime := ev.ts
    bytes := af.bytes + ev.bytes
    packets := af.packets + ev.packets }

/-- Fresh accumulator created for the first event of a key (first-seen is the
event's timestamp). -/
def newFlow (ev : RawEvent) : AccountedFlow :=
  { key := ev.key
    startTime := ev.ts
    endTime := ev.ts
    bytes := ev.bytes
    packets := ev.packets }

/-- The live entry with the smallest first-seen time, when there is one. -/
def oldestEntry : List AccountedFlow → Option AccountedFlow
  | [] => none
  | e :: rest =>
    match oldestEntry rest with
    | none => some e
    | some o => if e.startTime ≤ o.startTime then some e else some o

/-- Modelled from the spec: eviction of the single oldest live entry (by
first-seen time) to the export queue (spec section 4.4). -/
def evictOldest (st : CacheState) : CacheState :=
  match oldestEntry st.entries with
  | none => st
  | some o =>
    { entries := st.entries.erase o, exported := st.exported ++ [o] }

/-- Modelled from the spec: `Admit(event)` of the Accounting Cache (spec
section 4.4).  A present key merges into its accumulator; an absent key
first forces eviction of the oldest entry when the insertion would exceed
the capacity bound, then inserts a fresh accumulator. -/
def Admit (cap : Nat) (st : CacheState) (ev : RawEvent) : CacheState :=
  if (st.entries.find? (fun af => af.key == ev.key)).isSome then
    { st with entries :=
        st.entries.map (fun af => if af.key == ev.key then mergeEvent af ev else af) }
  else
    let st1 := if cap ≤ st.entries.length then evictOldest st else st
    { st1 with entries := st1.entries ++ [newFlow ev] }

/-- Processing a whole input sequence through the Accounting Cache, starting
from the empty cache. -/
def processEvents (cap : Nat) (evs : List RawEvent) : CacheState :=
  evs.foldl (Admit cap) initialCache

/-- Helper: `oldestEntry` yields `none` exactly on the empty list. -/
theorem oldestEntry_eq_none_iff (l : List AccountedFlow) :
    oldestEntry l = none ↔ l = [] := by
  cases l with
  | nil => simp [oldestEntry]
  | cons e rest =>
    simp only [oldestEntry]
    cases oldestEntry rest with
    | none => simp
    | some o =>
      by_cases h : e.startTime ≤ o.startTime <;> simp [h]

/-- Helper: the oldest entry is a member of the list. -/
theorem oldestEntry_mem (l : List AccountedFlow) :
    ∀ o, oldestEntry l = some o → o ∈ l := by
  induction l with
  | nil => intro o h; simp [oldestEntry] at h
  | cons e rest ih =>
    intro o h
    simp only [oldestEntry] at h
    cases hr : oldestEntry rest with
    | none => rw [hr] at h; simp at h; simp [h]
    | some o' =>
      rw [hr] at h
      by_cases hc : e.startTime ≤ o'.startTime
      · simp [hc] at h; simp [h]
      · simp [hc] at h
        exact List.mem_cons_of_mem e (h ▸ ih o' hr)

/-- Helper: the oldest entry has the minimal first-seen time of the list. -/
theorem oldestEntry_min (l : List AccountedFlow) :
    ∀ o, oldestEntry l = some o → ∀ e ∈ l, o.startTime ≤ e.startTime := by
  induction l with
  | nil => intro o h; simp [oldestEntry] at h
  | cons e rest ih =>
    intro o h
    simp only [oldestEntry] at h
    cases hr : oldestEntry rest with
    | none =>
      rw [hr] at h
      simp at h
      have hrest : rest = [] := (oldestEntry_eq_none_iff rest).mp hr
      subst hrest
      simp [h]
    | some o' =>
      rw [hr] at h
      by_cases hc : e.startTime ≤ o'.startTime
      · simp [hc] at h
        subst h
        intro x hx
        rcases List.mem_cons.mp hx with hx | hx
        · subst hx; exact le_refl _
        · exact le_trans hc (ih o' hr x hx)
      · simp [hc] at h
        subst h
        intro x hx
        rcases List.mem_cons.mp hx with hx | hx
        · subst hx
          exact le_of_lt (lt_of_not_le hc)
        · exact ih o' hr x hx

/-- Helper: a single `Admit` step keeps the live-entry count within the
capacity bound, for a positive capacity. -/
theorem admitStep_length_le (cap : Nat) (hcap : 0 < cap) (st : CacheState)
    (ev : RawEvent) (h : st.entries.length ≤ cap) :
    (Admit cap st ev).entries.length ≤ cap := by
  unfold Admit
  by_cases hfind : (st.entries.find? (fun af => af.key == ev.key)).isSome
  · simp [hfind, h]
  · simp only [hfind, if_false, Bool.false_eq_true]
    by_cases hfull : cap ≤ st.entries.length
    · have hne : st.entries ≠ [] := by
        intro hnil
        rw [hnil] at hfull
        simp at hfull
        omega
      have hsome : ∃ o, oldestEntry st.entries = some o := by
        cases ho : oldestEntry st.entries with
        | none => exact absurd ((oldestEntry_eq_none_iff _).mp ho) hne
        | some o => exact ⟨o, rfl⟩
      rcases hsome with ⟨o, ho⟩
      have hmem := oldestEntry_mem st.entries o ho
      simp only [hfull, if_true, evictOldest, ho]
      simp only [List.length_append, List.length_cons, List.length_nil]
      have := List.length_erase_of_mem hmem
      omega
    · simp only [hfull, if_false]
      simp only [List.length_append, List.length_cons, List.length_nil]
      omega

/-- Helper: the capacity invariant is preserved along any fold of `Admit`. -/
theorem foldl_admitStep_length_le (cap : Nat) (hcap : 0 < cap) :
    ∀ (evs : List RawEvent) (st : CacheState), st.entries.length ≤ cap →
      (evs.foldl (Admit cap) st).entries.length ≤ cap := by
  intro evs
  induction evs with
  | nil => intro st h; simpa using h
  | cons ev rest ih =>
    intro st h
    simp only [List.foldl_cons]
    exact ih _ (admitStep_length_le cap hcap st ev h)

/-- C4: for every input event sequence the Accounting Cache never holds more
live entries than the configured capacity, and an insertion for a new key
at capacity first evicts exactly the single oldest live entry (by first-seen
time) to the export queue, leaving the live-entry count unchanged. -/
theorem cache_capacity_invariant (cap : Nat) (hcap : 0 < cap) :
    (∀ evs : List RawEvent, (processEvents cap evs).entries.length ≤ cap) ∧
    (∀ (st : CacheState) (ev : RawEvent),
      (st.entries.find? (fun af => af.key == ev.key)).isSome = false →
      cap ≤ st.entries.length → st.entries ≠ [] →
      ∃ o, oldestEntry st.entries = some o ∧ o ∈ st.entries ∧
        (∀ e ∈ st.entries, o.startTime ≤ e.startTime) ∧
        (Admit cap st ev).exported = st.exported ++ [o] ∧
        (Admit cap st ev).entries.length = st.entries.length) := by
  constructor
  · intro evs
    exact foldl_admitStep_length_le cap hcap evs initialCache (by simp [initialCache])
  · intro st ev hfind hfull hne
    have hsome : ∃ o, oldestEntry st.entries = some o := by
      cases ho : oldestEntry st.entries with
      | none => exact absurd ((oldestEntry_eq_none_iff _).mp ho) hne
      | some o => exact ⟨o, rfl⟩
    rcases hsome with ⟨o, ho⟩
    have hmem := oldestEntry_mem st.entries o ho
    refine ⟨o, ho, hmem, oldestEntry_min st.entries o ho, ?_, ?_⟩
    · unfold Admit
      simp only [hfind, Bool.false_eq_true, if_false, hfull, if_true,
        evictOldest, ho]
    · unfold Admit
      simp only [hfind, Bool.false_eq_true, if_false, hfull, if_true,
        evictOldest, ho]
      simp only [List.length_append, List.length_cons, List.length_nil]
      have := List.length_erase_of_mem hmem
      have hlen : 1 ≤ st.entries.length := by
        cases hl : st.entries with
        | nil => exact absurd hl hne
        | cons a t => simp [hl]
      omega

/-- Concrete three-event trace used to witness the cache invariant. -/
def demoEvents : List RawEvent :=
  [ { key := { srcAddr := 1, dstAddr := 2, srcPort := 80, dstPort := 999,
               protocol := 6, iface := 1, direction := 0 },
      ts := 10, bytes := 100, packets := 1 },
    { key := { srcAddr := 3, dstAddr := 4, srcPort := 53, dstPort := 777,
               protocol := 17, iface := 1, direction := 0 },
      ts := 11, bytes := 200, packets := 2 },
    { key := { srcAddr := 5, dstAddr := 6, srcPort := 22, dstPort := 555,
               protocol := 6, iface := 2, direction := 1 },
      ts := 12, bytes := 50, packets := 1 } ]

/-- Witness for C4: processing three distinct-key events through a cache of
capacity two leaves at most two live entries. -/
theorem cache_capacity_invariant_witness :
    (processEvents 2 demoEvents).entries.length ≤ 2 :=
  (cache_capacity_invariant 2 (by decide)).1 demoEvents

/-- Modelled from the spec: the base identity tracked by the Deduplicator, a
FlowKey with its interface and direction stripped (spec section 3,
DedupEntry). -/
structure DedupBaseKey where
  srcAddr : Nat
  dstAddr : Nat
  srcPort : Nat
  dstPort : Nat
  protocol : Nat
deriving DecidableEq

/-- Modelled from the spec: per-base-key deduplicator state, recording the
owning interface/direction pair and the last-seen time. -/
structure DedupEntry where
  key : DedupBaseKey
  ownerIface : Nat
  ownerDirection : Nat
  lastSeen : Int
deriving DecidableEq

/-- Modelled from the spec and from the doc comment of
`Config.DeduperFCExpiry` in `pkg/agent/config.go` (the code that applies
the default is not among the staged files): when `DeduperFCExpiry` is not
set (zero), the deduplicator expiry window defaults to
`2 * CacheActiveTimeout`; otherwise the configured value is used. -/
def effectiveDeduperExpiry (cfg : Config) : Int :=
  if cfg.DeduperFCExpiry = 0 then 2 * cfg.CacheActiveTimeout
  else cfg.DeduperFCExpiry

/-- Modelled from the spec: the background sweep of the Deduplicator keeps
exactly the entries whose last-seen age does not exceed the expiry window
(spec section 4.3). -/
def dedupSweep (window now : Int) (entries : List DedupEntry) : List DedupEntry :=
  entries.filter (fun e => decide (now - e.lastSeen ≤ window))

/-- C5: with `DeduperFCExpiry` unset (zero), the effective expiry window is
exactly twice `CacheActiveTimeout`, and the background sweep keeps a
DedupEntry exactly when its last-seen age is within that doubled window. -/
theorem deduperExpiry_defaults_to_twice_activeTimeout (cfg : Config)
    (h : cfg.DeduperFCExpiry = 0) :
    effectiveDeduperExpiry cfg = 2 * cfg.CacheActiveTimeout ∧
    (∀ (now : Int) (entries : List DedupEntry) (e : DedupEntry),
      e ∈ dedupSweep (effectiveDeduperExpiry cfg) now entries ↔
        e ∈ entries ∧ now - e.lastSeen ≤ 2 * cfg.CacheActiveTimeout) := by
  constructor
  · simp [effectiveDeduperExpiry, h]
  · intro now entries e
    simp [dedupSweep, effectiveDeduperExpiry, h, List.mem_filter]

/-- Witness for C5 at the default configuration, whose `DeduperFCExpiry` is
unset. -/
theorem deduperExpiry_default_witness :
    effectiveDeduperExpiry zeroConfig = 2 * zeroConfig.CacheActiveTimeout :=
  (deduperExpiry_defaults_to_twice_activeTimeout zeroConfig (by decide)).1

/-- Modelled from the spec: the capacity of the exporter's bounded input
queue is the configured buffer length, or the dedicated export-buffer
length when that is configured larger (spec section 4.5; the queue-creation
code is not among the staged files). -/
def exporterQueueCapacity (cfg : Config) : Int :=
  if cfg.BuffersLength < cfg.ExporterBufferLength then cfg.ExporterBufferLength
  else cfg.BuffersLength

/-- C6: the exporter queue capacity equals `ExporterBufferLength` when that
option is configured larger than `BuffersLength`, equals `BuffersLength`
otherwise, and in particular equals `BuffersLength` whenever
`ExporterBufferLength` is unset (zero) and `BuffersLength` is non-negative. -/
theorem exporterQueueCapacity_spec (cfg : Config) :
    (cfg.BuffersLength < cfg.ExporterBufferLength →
      exporterQueueCapacity cfg = cfg.ExporterBufferLength) ∧
    (cfg.ExporterBufferLength ≤ cfg.BuffersLength →
      exporterQueueCapacity cfg = cfg.BuffersLength) ∧
    (cfg.ExporterBufferLength = 0 → 0 ≤ cfg.BuffersLength →
      exporterQueueCapacity cfg = cfg.BuffersLength) := by
  unfold exporterQueueCapacity
  by_cases hlt : cfg.BuffersLength < cfg.ExporterBufferLength <;>
    simp_all

/-- Witness for C6 at the default configuration: `ExporterBufferLength`
unset, `BuffersLength = 50`, so the queue capacity is the buffer length. -/
theorem exporterQueueCapacity_witness :
    exporterQueueCapacity zeroConfig = zeroConfig.BuffersLength :=
  (exporterQueueCapacity_spec zeroConfig).2.2 (by decide) (by decide)

/-- Fuel-indexed splitting loop: emit a prefix of at most `cap` records and
recurse on the remainder; the fuel starts at the batch length and strictly
exceeds the number of rounds needed whenever `cap` is positive. -/
def splitBatchGo (cap : Nat) : Nat → List AccountedFlow → List (List AccountedFlow)
  | _, [] => []
  | 0, l => [l]
  | fuel + 1, l => l.take cap :: splitBatchGo cap fuel (l.drop cap)

/-- Modelled from the spec: the remote-procedure-call stream backend sends a
batch as one message and splits a batch exceeding the per-message flow cap
into sequential sub-messages (spec section 4.5; the gRPC exporter code is
not among the staged files). -/
def splitBatch (cap : Nat) (l : List AccountedFlow) : List (List AccountedFlow) :=
  splitBatchGo cap l.length l

/-- Helper: concatenating the emitted sub-messages restores the batch. -/
theorem splitBatchGo_join (cap : Nat) (hcap : 0 < cap) :
    ∀ (fuel : Nat) (l : List AccountedFlow), l.length ≤ fuel →
      (splitBatchGo cap fuel l).flatten = l := by
  intro fuel
  induction fuel with
  | zero =>
    intro l h
    have : l = [] := List.eq_nil_of_length_eq_zero (Nat.le_zero.mp h)
    subst this
    simp [splitBatchGo]
  | succ n ih =>
    intro l h
    cases l with
    | nil => simp [splitBatchGo]
    | cons a t =>
      simp only [List.length_cons] at h
      simp only [splitBatchGo, List.flatten_cons]
      rw [ih ((a :: t).drop cap)
        (by simp only [List.length_drop, List.length_cons]; omega)]
      exact List.take_append_drop cap (a :: t)

/-- Helper: every emitted sub-message holds at most `cap` records. -/
theorem splitBatchGo_le (cap : Nat) (hcap : 0 < cap) :
    ∀ (fuel : Nat) (l : List AccountedFlow), l.length ≤ fuel →
      ∀ msg ∈ splitBatchGo cap fuel l, msg.length ≤ cap := by
  intro fuel
  induction fuel with
  | zero =>
    intro l h
    have : l = [] := List.eq_nil_of_length_eq_zero (Nat.le_zero.mp h)
    subst this
    simp [splitBatchGo]
  | succ n ih =>
    intro l h msg hmsg
    cases l with
    | nil => simp [splitBatchGo] at hmsg
    | cons a t =>
      simp only [splitBatchGo, List.mem_cons] at hmsg
      rcases hmsg with hmsg | hmsg
      · subst hmsg
        simp [List.length_take]
      · have hlen : ((a :: t).drop cap).length ≤ n := by
          simp only [List.length_drop, List.length_cons]
          simp only [List.length_cons] at h
          omega
        exact ih ((a :: t).drop cap) hlen msg hmsg

/-- C7: for a positive per-message cap, a non-empty batch within the cap is
sent as exactly one message, each emitted sub-message holds at most the cap
many records, and the sub-messages in order cover the whole batch. -/
theorem grpc_message_splitting (cfg : Config)
    (hcap : 0 < cfg.GRPCMessageMaxFlows.toNat) (batch : List AccountedFlow) :
    (batch ≠ [] → batch.length ≤ cfg.GRPCMessageMaxFlows.toNat →
      splitBatch cfg.GRPCMessageMaxFlows.toNat batch = [batch]) ∧
    (splitBatch cfg.GRPCMessageMaxFlows.toNat batch).flatten = batch ∧
    (∀ msg ∈ splitBatch cfg.GRPCMessageMaxFlows.toNat batch,
      msg.length ≤ cfg.GRPCMessageMaxFlows.toNat) := by
  set cap := cfg.GRPCMessageMaxFlows.toNat with hc
  refine ⟨?_, splitBatchGo_join cap hcap batch.length batch (le_refl _),
    splitBatchGo_le cap hcap batch.length batch (le_refl _)⟩
  intro hne hle
  cases batch with
  | nil => exact absurd rfl hne
  | cons a t =>
    simp only [splitBatch, List.length_cons, splitBatchGo]
    rw [List.take_of_length_le (by simpa using hle),
      List.drop_eq_nil_of_le (by simpa using hle)]
    simp [splitBatchGo]

/-- Concrete three-record batch used to witness the splitting property. -/
def demoBatch : List AccountedFlow :=
  demoEvents.map newFlow

/-- Witness for C7 at the default configuration (cap 10000): the
sub-messages of a concrete batch concatenate back to the batch. -/
theorem grpc_message_splitting_witness :
    (splitBatch zeroConfig.GRPCMessageMaxFlows.toNat demoBatch).flatten =
      demoBatch :=
  (grpc_message_splitting zeroConfig (by decide) demoBatch).2.1

end Agent

namespace V1Alpha1

/-!
Embedding of `api/v1alpha1/zz_generated.deepcopy.go`.  The struct
declarations of the package (its `*_types.go` file) are not among the staged
files, so each structure below carries exactly the fields the generated
deep-copy code manipulates, plus one `rest` component standing for the
remaining plainly-copied fields (copied wholesale by Go's `*out = *in`).
External Kubernetes types (`TypeMeta`, `ObjectMeta`, `ListMeta`,
`v1.Condition`, `v2beta2.MetricSpec`, `ResourceRequirements`) are likewise
modelled with representative content and value-faithful copy functions.
Go pointers are `Option`, slices are `List`, maps are association lists.
-/

/-- Copy of a Go slice: `make([]T, len(*in)); copy(*out, *in)`. -/
def copySlice {α : Type} : List α → List α
  | [] => []
  | a :: rest => a :: copySlice rest

/-- Copy of a Go map: `make(map[K]V, len(*in))` followed by inserting every
key/value pair of the source. -/
def copyMap {κ ν : Type} : List (κ × ν) → List (κ × ν)
  | [] => []
  | (k, v) :: rest => (k, v) :: copyMap rest

/-- Copy of a Go pointer to a plain value: `*out = new(T); **out = **in`
when the source pointer is non-nil, nil otherwise. -/
def copyPtr {α : Type} : Option α → Option α
  | none => none
  | some v => some v

/-- Nil-guarded copy of an optional component: the generated code only
rebuilds a slice/map when the source field is non-nil. -/
def copyOpt {α : Type} (f : α → α) : Option α → Option α
  | none => none
  | some v => some (f v)

/-- Element-wise copy loop: `for i := range *in { (*in)[i].DeepCopyInto(&(*out)[i]) }`. -/
def copyEach {α : Type} (f : α → α) : List α → List α
  | [] => []
  | a :: rest => f a :: copyEach f rest

theorem copySlice_eq {α : Type} : ∀ l : List α, copySlice l = l
  | [] => rfl
  | a :: rest => by simp [copySlice, copySlice_eq rest]

theorem copyMap_eq {κ ν : Type} : ∀ l : List (κ × ν), copyMap l = l
  | [] => rfl
  | (k, v) :: rest => by simp [copyMap, copyMap_eq rest]

theorem copyPtr_eq {α : Type} : ∀ o : Option α, copyPtr o = o
  | none => rfl
  | some _ => rfl

theorem copyOpt_eq {α : Type} {f : α → α} (hf : ∀ a, f a = a) :
    ∀ o : Option α, copyOpt f o = o
  | none => rfl
  | some v => by simp [copyOpt, hf v]

theorem copyEach_eq {α : Type} {f : α → α} (hf : ∀ a, f a = a) :
    ∀ l : List α, copyEach f l = l
  | [] => rfl
  | a :: rest => by simp [copyEach, hf a, copyEach_eq hf rest]

/-- External: `k8s.io/apimachinery` TypeMeta, copied by plain assignment. -/
structure TypeMeta where
  kind : String
  apiVersion : String

/-- External: `k8s.io/apimachinery` ObjectMeta with representative content;
its generated `DeepCopyInto` rebuilds the label map. -/
structure ObjectMeta where
  name : String
  labels : List (String × String)

def ObjectMeta.DeepCopyInto (i : ObjectMeta) : ObjectMeta :=
  { name := i.name
    labels := copyMap i.labels }

/-- External: `k8s.io/apimachinery` ListMeta, value fields only. -/
structure ListMeta where
  resourceVersion : String
  continueToken : String

def ListMeta.DeepCopyInto (i : ListMeta) : ListMeta :=
  { resourceVersion := i.resourceVersion
    continueToken := i.continueToken }

/-- External: `meta/v1.Condition`, value fields only. -/
structure Condition where
  condType : String
  status : String
  reason : String
  message : String

def Condition.DeepCopyInto (i : Condition) : Condition :=
  { condType := i.condType
    status := i.status
    reason := i.reason
    message := i.message }

/-- External: `autoscaling/v2beta2.MetricSpec`, modelled with one payload. -/
structure MetricSpec where
  raw : String

def MetricSpec.DeepCopyInto (i : MetricSpec) : MetricSpec :=
  { raw := i.raw }

/-- External: `core/v1.ResourceRequirements`; its generated deep copy
rebuilds the limits and requests maps. -/
structure ResourceRequirements where
  limits : List (String × Nat)
  requests : List (String × Nat)

def ResourceRequirements.DeepCopyInto (i : ResourceRequirements) : ResourceRequirements :=
  { limits := copyMap i.limits
    requests := copyMap i.requests }

/-- Generated type: all fields value-copied (`*out = *in`). -/
structure CertificateReference where
  rest : String

def CertificateReference.DeepCopyInto (i : CertificateReference) : CertificateReference :=
  { rest := i.rest }

def CertificateReference.DeepCopy : Option CertificateReference → Option CertificateReference
  | none => none
  | some i => some i.DeepCopyInto

/-- Generated type: `Provided` is a pointer to a CertificateReference,
copied by allocation plus value assignment when non-nil. -/
structure ServerTLS where
  rest : String
  Provided : Option CertificateReference

def ServerTLS.DeepCopyInto (i : ServerTLS) : ServerTLS :=
  { rest := i.rest
    Provided := copyPtr i.Provided }

def ServerTLS.DeepCopy : Option ServerTLS → Option ServerTLS
  | none => none
  | some i => some i.DeepCopyInto

/-- Generated type: nested `TLS.DeepCopyInto` call. -/
structure MetricsServerConfig where
  rest : String
  TLS : ServerTLS

def MetricsServerConfig.DeepCopyInto (i : MetricsServerConfig) : MetricsServerConfig :=
  { rest := i.rest
    TLS := i.TLS.DeepCopyInto }

def MetricsServerConfig.DeepCopy : Option MetricsServerConfig → Option MetricsServerConfig
  | none => none
  | some i => some i.DeepCopyInto

/-- Generated type: `CACert` and `UserCert` value-copied. -/
structure ClientTLS where
  rest : String
  CACert : CertificateReference
  UserCert : CertificateReference

def ClientTLS.DeepCopyInto (i : ClientTLS) : ClientTLS :=
  { rest := i.rest
    CACert := i.CACert
    UserCert := i.UserCert }

def ClientTLS.DeepCopy : Option ClientTLS → Option ClientTLS
  | none => none
  | some i => some i.DeepCopyInto

/-- Generated type: all fields value-copied. -/
structure ClusterNetworkOperatorConfig where
  rest : String

def ClusterNetworkOperatorConfig.DeepCopyInto (i : ClusterNetworkOperatorConfig) :
    ClusterNetworkOperatorConfig :=
  { rest := i.rest }

def ClusterNetworkOperatorConfig.DeepCopy :
    Option ClusterNetworkOperatorConfig → Option ClusterNetworkOperatorConfig
  | none => none
  | some i => some i.DeepCopyInto

/-- Generated type: all fields value-copied. -/
structure OVNKubernetesConfig where
  rest : String

def OVNKubernetesConfig.DeepCopyInto (i : OVNKubernetesConfig) : OVNKubernetesConfig :=
  { rest := i.rest }

def OVNKubernetesConfig.DeepCopy : Option OVNKubernetesConfig → Option OVNKubernetesConfig
  | none => none
  | some i => some i.DeepCopyInto

/-- Generated type: `PortNames` is a map, rebuilt when non-nil. -/
structure ConsolePluginPortConfig where
  rest : String
  PortNames : Option (List (String × String))

def ConsolePluginPortConfig.DeepCopyInto (i : ConsolePluginPortConfig) :
    ConsolePluginPortConfig :=
  { rest := i.rest
    PortNames := copyOpt copyMap i.PortNames }

def ConsolePluginPortConfig.DeepCopy :
    Option ConsolePluginPortConfig → Option ConsolePluginPortConfig
  | none => none
  | some i => some i.DeepCopyInto

/-- Generated type: `Filter` is a map, rebuilt when non-nil. -/
structure QuickFilter where
  rest : String
  Filter : Option (List (String × String))

def QuickFilter.DeepCopyInto (i : QuickFilter) : QuickFilter :=
  { rest := i.rest
    Filter := copyOpt copyMap i.Filter }

def QuickFilter.DeepCopy : Option QuickFilter → Option QuickFilter
  | none => none
  | some i => some i.DeepCopyInto

/-- Generated type: pointer `MinReplicas` and slice `Metrics` of external
MetricSpec values, copied element-wise. -/
structure FlowCollectorHPA where
  rest : String
  MinReplicas : Option Int
  Metrics : Option (List MetricSpec)

def FlowCollectorHPA.DeepCopyInto (i : FlowCollectorHPA) : FlowCollectorHPA :=
  { rest := i.rest
    MinReplicas := copyPtr i.MinReplicas
    Metrics := copyOpt (copyEach MetricSpec.DeepCopyInto) i.Metrics }

def FlowCollectorHPA.DeepCopy : Option FlowCollectorHPA → Option FlowCollectorHPA
  | none => none
  | some i => some i.DeepCopyInto

/-- Generated type: nested `Server.DeepCopyInto` and slice `IgnoreTags`. -/
structure FLPMetrics where
  rest : String
  Server : MetricsServerConfig
  IgnoreTags : Option (List String)

def FLPMetrics.DeepCopyInto (i : FLPMetrics) : FLPMetrics :=
  { rest := i.rest
    Server := i.Server.DeepCopyInto
    IgnoreTags := copyOpt copySlice i.IgnoreTags }

def FLPMetrics.DeepCopy : Option FLPMetrics → Option FLPMetrics
  | none => none
  | some i => some i.DeepCopyInto

/-- Generated type: two value-copied nested configs. -/
structure FlowCollectorIPFIX where
  rest : String
  ClusterNetworkOperator : ClusterNetworkOperatorConfig
  OVNKubernetes : OVNKubernetesConfig

def FlowCollectorIPFIX.DeepCopyInto (i : FlowCollectorIPFIX) : FlowCollectorIPFIX :=
  { rest := i.rest
    ClusterNetworkOperator := i.ClusterNetworkOperator
    OVNKubernetes := i.OVNKubernetes }

def FlowCollectorIPFIX.DeepCopy : Option FlowCollectorIPFIX → Option FlowCollectorIPFIX
  | none => none
  | some i => some i.DeepCopyInto

/-- Generated type: `TLS` value-copied. -/
structure FlowCollectorKafka where
  rest : String
  TLS : ClientTLS

def FlowCollectorKafka.DeepCopyInto (i : FlowCollectorKafka) : FlowCollectorKafka :=
  { rest := i.rest
    TLS := i.TLS }

def FlowCollectorKafka.DeepCopy : Option FlowCollectorKafka → Option FlowCollectorKafka
  | none => none
  | some i => some i.DeepCopyInto

/-- Generated type: nested resources, pointer `Sampling`, two string slices
and an environment map. -/
structure FlowCollectorEBPF where
  rest : String
  Resources : ResourceRequirements
  Sampling : Option Int
  Interfaces : Option (List String)
  ExcludeInterfaces : Option (List String)
  Env : Option (List (String × String))

def FlowCollectorEBPF.DeepCopyInto (i : FlowCollectorEBPF) : FlowCollectorEBPF :=
  { rest := i.rest
    Resources := i.Resources.DeepCopyInto
    Sampling := copyPtr i.Sampling
    Interfaces := copyOpt copySlice i.Interfaces
    ExcludeInterfaces := copyOpt copySlice i.ExcludeInterfaces
    Env := copyOpt copyMap i.Env }

def FlowCollectorEBPF.DeepCopy : Option FlowCollectorEBPF → Option FlowCollectorEBPF
  | none => none
  | some i => some i.DeepCopyInto

/-- Generated type: `IPFIX` value-copied, nested `EBPF.DeepCopyInto`. -/
structure FlowCollectorAgent where
  rest : String
  IPFIX : FlowCollectorIPFIX
  EBPF : FlowCollectorEBPF

def FlowCollectorAgent.DeepCopyInto (i : FlowCollectorAgent) : FlowCollectorAgent :=
  { rest := i.rest
    IPFIX := i.IPFIX
    EBPF := i.EBPF.DeepCopyInto }

def FlowCollectorAgent.DeepCopy : Option FlowCollectorAgent → Option FlowCollectorAgent
  | none => none
  | some i => some i.DeepCopyInto

/-- Generated type: nested metrics, resources, autoscaler, and an
environment map. -/
structure FlowCollectorFLP where
  rest : String
  Metrics : FLPMetrics
  Resources : ResourceRequirements
  KafkaConsumerAutoscaler : FlowCollectorHPA
  Env : Option (List (String × String))

def FlowCollectorFLP.DeepCopyInto (i : FlowCollectorFLP) : FlowCollectorFLP :=
  { rest := i.rest
    Metrics := i.Metrics.DeepCopyInto
    Resources := i.Resources.DeepCopyInto
    KafkaConsumerAutoscaler := i.KafkaConsumerAutoscaler.DeepCopyInto
    Env := copyOpt copyMap i.Env }

def FlowCollectorFLP.DeepCopy : Option FlowCollectorFLP → Option FlowCollectorFLP
  | none => none
  | some i => some i.DeepCopyInto

/-- Generated type: four value-copied durations, a static-label map and a
value-copied `TLS`. -/
structure FlowCollectorLoki where
  rest : String
  BatchWait : Int
  Timeout : Int
  MinBackoff : Int
  MaxBackoff : Int
  StaticLabels : Option (List (String × String))
  TLS : ClientTLS

def FlowCollectorLoki.DeepCopyInto (i : FlowCollectorLoki) : FlowCollectorLoki :=
  { rest := i.rest
    BatchWait := i.BatchWait
    Timeout := i.Timeout
    MinBackoff := i.MinBackoff
    MaxBackoff := i.MaxBackoff
    StaticLabels := copyOpt copyMap i.StaticLabels
    TLS := i.TLS }

def FlowCollectorLoki.DeepCopy : Option FlowCollectorLoki → Option FlowCollectorLoki
  | none => none
  | some i => some i.DeepCopyInto

/-- Generated type: nested resources, autoscaler, port naming and an
element-wise copied QuickFilter slice. -/
structure FlowCollectorConsolePlugin where
  rest : String
  Resources : ResourceRequirements
  Autoscaler : FlowCollectorHPA
  PortNaming : ConsolePluginPortConfig
  QuickFilters : Option (List QuickFilter)

def FlowCollectorConsolePlugin.DeepCopyInto (i : FlowCollectorConsolePlugin) :
    FlowCollectorConsolePlugin :=
  { rest := i.rest
    Resources := i.Resources.DeepCopyInto
    Autoscaler := i.Autoscaler.DeepCopyInto
    PortNaming := i.PortNaming.DeepCopyInto
    QuickFilters := copyOpt (copyEach QuickFilter.DeepCopyInto) i.QuickFilters }

def FlowCollectorConsolePlugin.DeepCopy :
    Option FlowCollectorConsolePlugin → Option FlowCollectorConsolePlugin
  | none => none
  | some i => some i.DeepCopyInto

/-- Generated type: `Kafka` value-copied. -/
structure FlowCollectorExporter where
  rest : String
  Kafka : FlowCollectorKafka

def FlowCollectorExporter.DeepCopyInto (i : FlowCollectorExporter) : FlowCollectorExporter :=
  { rest := i.rest
    Kafka := i.Kafka }

def FlowCollectorExporter.DeepCopy : Option FlowCollectorExporter → Option FlowCollectorExporter
  | none => none
  | some i => some i.DeepCopyInto

/-- Generated type: nested agent/processor/loki/console-plugin copies, a
value-copied `Kafka`, and a slice of pointers to exporters whose non-nil
elements are copied by allocation plus value assignment. -/
structure FlowCollectorSpec where
  rest : String
  Agent : FlowCollectorAgent
  Processor : FlowCollectorFLP
  Loki : FlowCollectorLoki
  ConsolePlugin : FlowCollectorConsolePlugin
  Kafka : FlowCollectorKafka
  Exporters : Option (List (Option FlowCollectorExporter))

def FlowCollectorSpec.DeepCopyInto (i : FlowCollectorSpec) : FlowCollectorSpec :=
  { rest := i.rest
    Agent := i.Agent.DeepCopyInto
    Processor := i.Processor.DeepCopyInto
    Loki := i.Loki.DeepCopyInto
    ConsolePlugin := i.ConsolePlugin.DeepCopyInto
    Kafka := i.Kafka
    Exporters := copyOpt (copyEach copyPtr) i.Exporters }

def FlowCollectorSpec.DeepCopy : Option FlowCollectorSpec → Option FlowCollectorSpec
  | none => none
  | some i => some i.DeepCopyInto

/-- Generated type: element-wise copied slice of external conditions. -/
structure FlowCollectorStatus where
  rest : String
  Conditions : Option (List Condition)

def FlowCollectorStatus.DeepCopyInto (i : FlowCollectorStatus) : FlowCollectorStatus :=
  { rest := i.rest
    Conditions := copyOpt (copyEach Condition.DeepCopyInto) i.Conditions }

def FlowCollectorStatus.DeepCopy : Option FlowCollectorStatus → Option FlowCollectorStatus
  | none => none
  | some i => some i.DeepCopyInto

/-- Generated type: the custom resource itself. -/
structure FlowCollector where
  TypeMeta : TypeMeta
  ObjectMeta : ObjectMeta
  Spec : FlowCollectorSpec
  Status : FlowCollectorStatus

def FlowCollector.DeepCopyInto (i : FlowCollector) : FlowCollector :=
  { TypeMeta := i.TypeMeta
    ObjectMeta := i.ObjectMeta.DeepCopyInto
    Spec := i.Spec.DeepCopyInto
    Status := i.Status.DeepCopyInto }

def FlowCollector.DeepCopy : Option FlowCollector → Option FlowCollector
  | none => none
  | some i => some i.DeepCopyInto

/-- Go: `if c := in.DeepCopy(); c != nil { return c }; return nil`. -/
def FlowCollector.DeepCopyObject (i : Option FlowCollector) : Option FlowCollector :=
  match FlowCollector.DeepCopy i with
  | some c => some c
  | none => none

/-- Generated type: the list kind, with element-wise copied items. -/
structure FlowCollectorList where
  TypeMeta : TypeMeta
  ListMeta : ListMeta
  Items : Option (List FlowCollector)

def FlowCollectorList.DeepCopyInto (i : FlowCollectorList) : FlowCollectorList :=
  { TypeMeta := i.TypeMeta
    ListMeta := i.ListMeta.DeepCopyInto
    Items := copyOpt (copyEach FlowCollector.DeepCopyInto) i.Items }

def FlowCollectorList.DeepCopy : Option FlowCollectorList → Option FlowCollectorList
  | none => none
  | some i => some i.DeepCopyInto

/-- Go: `if c := in.DeepCopy(); c != nil { return c }; return nil`. -/
def FlowCollectorList.DeepCopyObject (i : Option FlowCollectorList) : Option FlowCollectorList :=
  match FlowCollectorList.DeepCopy i with
  | some c => some c
  | none => none

end V1Alpha1

namespace V1Alpha1

/-- In the value-semantics embedding, the external ObjectMeta copy preserves
the value. -/
theorem objectMeta_copyInto_eq (i : ObjectMeta) : i.DeepCopyInto = i := by
  cases i
  simp [ObjectMeta.DeepCopyInto, copyMap_eq]

theorem listMeta_copyInto_eq (i : ListMeta) : i.DeepCopyInto = i := by
  cases i
  simp [ListMeta.DeepCopyInto]

theorem condition_copyInto_eq (i : Condition) : i.DeepCopyInto = i := by
  cases i
  simp [Condition.DeepCopyInto]

theorem metricSpec_copyInto_eq (i : MetricSpec) : i.DeepCopyInto = i := by
  cases i
  simp [MetricSpec.DeepCopyInto]

theorem resourceRequirements_copyInto_eq (i : ResourceRequirements) :
    i.DeepCopyInto = i := by
  cases i
  simp [ResourceRequirements.DeepCopyInto, copyMap_eq]

theorem certificateReference_copyInto_eq (i : CertificateReference) :
    i.DeepCopyInto = i := by
  cases i
  simp [CertificateReference.DeepCopyInto]

theorem certificateReference_copy_eq :
    ∀ x : Option CertificateReference, CertificateReference.DeepCopy x = x
  | none => rfl
  | some i => by simp [CertificateReference.DeepCopy, certificateReference_copyInto_eq i]

theorem serverTLS_copyInto_eq (i : ServerTLS) : i.DeepCopyInto = i := by
  cases i
  simp [ServerTLS.DeepCopyInto, copyPtr_eq]

theorem serverTLS_copy_eq : ∀ x : Option ServerTLS, ServerTLS.DeepCopy x = x
  | none => rfl
  | some i => by simp [ServerTLS.DeepCopy, serverTLS_copyInto_eq i]

theorem metricsServerConfig_copyInto_eq (i : MetricsServerConfig) :
    i.DeepCopyInto = i := by
  cases i
  simp [MetricsServerConfig.DeepCopyInto, serverTLS_copyInto_eq]

theorem metricsServerConfig_copy_eq :
    ∀ x : Option MetricsServerConfig, MetricsServerConfig.DeepCopy x = x
  | none => rfl
  | some i => by simp [MetricsServerConfig.DeepCopy, metricsServerConfig_copyInto_eq i]

theorem clientTLS_copyInto_eq (i : ClientTLS) : i.DeepCopyInto = i := by
  cases i
  simp [ClientTLS.DeepCopyInto]

theorem clientTLS_copy_eq : ∀ x : Option ClientTLS, ClientTLS.DeepCopy x = x
  | none => rfl
  | some i => by simp [ClientTLS.DeepCopy, clientTLS_copyInto_eq i]

theorem clusterNetworkOperatorConfig_copyInto_eq (i : ClusterNetworkOperatorConfig) :
    i.DeepCopyInto = i := by
  cases i
  simp [ClusterNetworkOperatorConfig.DeepCopyInto]

theorem clusterNetworkOperatorConfig_copy_eq :
    ∀ x : Option ClusterNetworkOperatorConfig, ClusterNetworkOperatorConfig.DeepCopy x = x
  | none => rfl
  | some i => by
    simp [ClusterNetworkOperatorConfig.DeepCopy, clusterNetworkOperatorConfig_copyInto_eq i]

theorem ovnKubernetesConfig_copyInto_eq (i : OVNKubernetesConfig) :
    i.DeepCopyInto = i := by
  cases i
  simp [OVNKubernetesConfig.DeepCopyInto]

theorem ovnKubernetesConfig_copy_eq :
    ∀ x : Option OVNKubernetesConfig, OVNKubernetesConfig.DeepCopy x = x
  | none => rfl
  | some i => by simp [OVNKubernetesConfig.DeepCopy, ovnKubernetesConfig_copyInto_eq i]

theorem consolePluginPortConfig_copyInto_eq (i : ConsolePluginPortConfig) :
    i.DeepCopyInto = i := by
  cases i
  simp [ConsolePluginPortConfig.DeepCopyInto, copyOpt_eq copyMap_eq]

theorem consolePluginPortConfig_copy_eq :
    ∀ x : Option ConsolePluginPortConfig, ConsolePluginPortConfig.DeepCopy x = x
  | none => rfl
  | some i => by simp [ConsolePluginPortConfig.DeepCopy, consolePluginPortConfig_copyInto_eq i]

theorem quickFilter_copyInto_eq (i : QuickFilter) : i.DeepCopyInto = i := by
  cases i
  simp [QuickFilter.DeepCopyInto, copyOpt_eq copyMap_eq]

theorem quickFilter_copy_eq : ∀ x : Option QuickFilter, QuickFilter.DeepCopy x = x
  | none => rfl
  | some i => by simp [QuickFilter.DeepCopy, quickFilter_copyInto_eq i]

theorem flowCollectorHPA_copyInto_eq (i : FlowCollectorHPA) : i.DeepCopyInto = i := by
  cases i
  simp [FlowCollectorHPA.DeepCopyInto, copyPtr_eq,
    copyOpt_eq (copyEach_eq metricSpec_copyInto_eq)]

theorem flowCollectorHPA_copy_eq :
    ∀ x : Option FlowCollectorHPA, FlowCollectorHPA.DeepCopy x = x
  | none => rfl
  | some i => by simp [FlowCollectorHPA.DeepCopy, flowCollectorHPA_copyInto_eq i]

theorem flpMetrics_copyInto_eq (i : FLPMetrics) : i.DeepCopyInto = i := by
  cases i
  simp [FLPMetrics.DeepCopyInto, metricsServerConfig_copyInto_eq,
    copyOpt_eq copySlice_eq]

theorem flpMetrics_copy_eq : ∀ x : Option FLPMetrics, FLPMetrics.DeepCopy x = x
  | none => rfl
  | some i => by simp [FLPMetrics.DeepCopy, flpMetrics_copyInto_eq i]

theorem flowCollectorIPFIX_copyInto_eq (i : FlowCollectorIPFIX) :
    i.DeepCopyInto = i := by
  cases i
  simp [FlowCollectorIPFIX.DeepCopyInto]

theorem flowCollectorIPFIX_copy_eq :
    ∀ x : Option FlowCollectorIPFIX, FlowCollectorIPFIX.DeepCopy x = x
  | none => rfl
  | some i => by simp [FlowCollectorIPFIX.DeepCopy, flowCollectorIPFIX_copyInto_eq i]

theorem flowCollectorKafka_copyInto_eq (i : FlowCollectorKafka) :
    i.DeepCopyInto = i := by
  cases i
  simp [FlowCollectorKafka.DeepCopyInto]

theorem flowCollectorKafka_copy_eq :
    ∀ x : Option FlowCollectorKafka, FlowCollectorKafka.DeepCopy x = x
  | none => rfl
  | some i => by simp [FlowCollectorKafka.DeepCopy, flowCollectorKafka_copyInto_eq i]

theorem flowCollectorEBPF_copyInto_eq (i : FlowCollectorEBPF) :
    i.DeepCopyInto = i := by
  cases i
  simp [FlowCollectorEBPF.DeepCopyInto, resourceRequirements_copyInto_eq,
    copyPtr_eq, copyOpt_eq copySlice_eq, copyOpt_eq copyMap_eq]

theorem flowCollectorEBPF_copy_eq :
    ∀ x : Option FlowCollectorEBPF, FlowCollectorEBPF.DeepCopy x = x
  | none => rfl
  | some i => by simp [FlowCollectorEBPF.DeepCopy, flowCollectorEBPF_copyInto_eq i]

theorem flowCollectorAgent_copyInto_eq (i : FlowCollectorAgent) :
    i.DeepCopyInto = i := by
  cases i
  simp [FlowCollectorAgent.DeepCopyInto, flowCollectorEBPF_copyInto_eq]

theorem flowCollectorAgent_copy_eq :
    ∀ x : Option FlowCollectorAgent, FlowCollectorAgent.DeepCopy x = x
  | none => rfl
  | some i => by simp [FlowCollectorAgent.DeepCopy, flowCollectorAgent_copyInto_eq i]

theorem flowCollectorFLP_copyInto_eq (i : FlowCollectorFLP) : i.DeepCopyInto = i := by
  cases i
  simp [FlowCollectorFLP.DeepCopyInto, flpMetrics_copyInto_eq,
    resourceRequirements_copyInto_eq, flowCollectorHPA_copyInto_eq,
    copyOpt_eq copyMap_eq]

theorem flowCollectorFLP_copy_eq :
    ∀ x : Option FlowCollectorFLP, FlowCollectorFLP.DeepCopy x = x
  | none => rfl
  | some i => by simp [FlowCollectorFLP.DeepCopy, flowCollectorFLP_copyInto_eq i]

theorem flowCollectorLoki_copyInto_eq (i : FlowCollectorLoki) :
    i.DeepCopyInto = i := by
  cases i
  simp [FlowCollectorLoki.DeepCopyInto, copyOpt_eq copyMap_eq]

theorem flowCollectorLoki_copy_eq :
    ∀ x : Option FlowCollectorLoki, FlowCollectorLoki.DeepCopy x = x
  | none => rfl
  | some i => by simp [FlowCollectorLoki.DeepCopy, flowCollectorLoki_copyInto_eq i]

theorem flowCollectorConsolePlugin_copyInto_eq (i : FlowCollectorConsolePlugin) :
    i.DeepCopyInto = i := by
  cases i
  simp [FlowCollectorConsolePlugin.DeepCopyInto, resourceRequirements_copyInto_eq,
    flowCollectorHPA_copyInto_eq, consolePluginPortConfig_copyInto_eq,
    copyOpt_eq (copyEach_eq quickFilter_copyInto_eq)]

theorem flowCollectorConsolePlugin_copy_eq :
    ∀ x : Option FlowCollectorConsolePlugin, FlowCollectorConsolePlugin.DeepCopy x = x
  | none => rfl
  | some i => by
    simp [FlowCollectorConsolePlugin.DeepCopy, flowCollectorConsolePlugin_copyInto_eq i]

theorem flowCollectorExporter_copyInto_eq (i : FlowCollectorExporter) :
    i.DeepCopyInto = i := by
  cases i
  simp [FlowCollectorExporter.DeepCopyInto]

theorem flowCollectorExporter_copy_eq :
    ∀ x : Option FlowCollectorExporter, FlowCollectorExporter.DeepCopy x = x
  | none => rfl
  | some i => by simp [FlowCollectorExporter.DeepCopy, flowCollectorExporter_copyInto_eq i]

theorem flowCollectorSpec_copyInto_eq (i : FlowCollectorSpec) :
    i.DeepCopyInto = i := by
  cases i
  simp [FlowCollectorSpec.DeepCopyInto, flowCollectorAgent_copyInto_eq,
    flowCollectorFLP_copyInto_eq, flowCollectorLoki_copyInto_eq,
    flowCollectorConsolePlugin_copyInto_eq,
    copyOpt_eq (copyEach_eq copyPtr_eq)]

theorem flowCollectorSpec_copy_eq :
    ∀ x : Option FlowCollectorSpec, FlowCollectorSpec.DeepCopy x = x
  | none => rfl
  | some i => by simp [FlowCollectorSpec.DeepCopy, flowCollectorSpec_copyInto_eq i]

theorem flowCollectorStatus_copyInto_eq (i : FlowCollectorStatus) :
    i.DeepCopyInto = i := by
  cases i
  simp [FlowCollectorStatus.DeepCopyInto,
    copyOpt_eq (copyEach_eq condition_copyInto_eq)]

theorem flowCollectorStatus_copy_eq :
    ∀ x : Option FlowCollectorStatus, FlowCollectorStatus.DeepCopy x = x
  | none => rfl
  | some i => by simp [FlowCollectorStatus.DeepCopy, flowCollectorStatus_copyInto_eq i]

theorem flowCollector_copyInto_eq (i : FlowCollector) : i.DeepCopyInto = i := by
  cases i
  simp [FlowCollector.DeepCopyInto, objectMeta_copyInto_eq,
    flowCollectorSpec_copyInto_eq, flowCollectorStatus_copyInto_eq]

theorem flowCollector_copy_eq :
    ∀ x : Option FlowCollector, FlowCollector.DeepCopy x = x
  | none => rfl
  | some i => by simp [FlowCollector.DeepCopy, flowCollector_copyInto_eq i]

theorem flowCollectorList_copyInto_eq (i : FlowCollectorList) :
    i.DeepCopyInto = i := by
  cases i
  simp [FlowCollectorList.DeepCopyInto, listMeta_copyInto_eq,
    copyOpt_eq (copyEach_eq flowCollector_copyInto_eq)]

theorem flowCollectorList_copy_eq :
    ∀ x : Option FlowCollectorList, FlowCollectorList.DeepCopy x = x
  | none => rfl
  | some i => by simp [FlowCollectorList.DeepCopy, flowCollectorList_copyInto_eq i]

/-- C10: for every generated API type of the v1alpha1 package, `DeepCopy` on
a nil receiver returns nil and on a non-nil receiver returns a non-nil value
structurally equal to the receiver (in the value-semantics embedding this is
`DeepCopy x = x` over `Option`-represented pointers); consequently the two
`DeepCopyObject` methods return a non-nil object for a non-nil receiver. -/
theorem v1alpha1_DeepCopy_preserves_value :
    (∀ x : Option CertificateReference, CertificateReference.DeepCopy x = x) ∧
    (∀ x : Option ServerTLS, ServerTLS.DeepCopy x = x) ∧
    (∀ x : Option MetricsServerConfig, MetricsServerConfig.DeepCopy x = x) ∧
    (∀ x : Option ClientTLS, ClientTLS.DeepCopy x = x) ∧
    (∀ x : Option ClusterNetworkOperatorConfig, ClusterNetworkOperatorConfig.DeepCopy x = x) ∧
    (∀ x : Option OVNKubernetesConfig, OVNKubernetesConfig.DeepCopy x = x) ∧
    (∀ x : Option ConsolePluginPortConfig, ConsolePluginPortConfig.DeepCopy x = x) ∧
    (∀ x : Option QuickFilter, QuickFilter.DeepCopy x = x) ∧
    (∀ x : Option FlowCollectorHPA, FlowCollectorHPA.DeepCopy x = x) ∧
    (∀ x : Option FLPMetrics, FLPMetrics.DeepCopy x = x) ∧
    (∀ x : Option FlowCollectorIPFIX, FlowCollectorIPFIX.DeepCopy x = x) ∧
    (∀ x : Option FlowCollectorKafka, FlowCollectorKafka.DeepCopy x = x) ∧
    (∀ x : Option FlowCollectorEBPF, FlowCollectorEBPF.DeepCopy x = x) ∧
    (∀ x : Option FlowCollectorAgent, FlowCollectorAgent.DeepCopy x = x) ∧
    (∀ x : Option FlowCollectorFLP, FlowCollectorFLP.DeepCopy x = x) ∧
    (∀ x : Option FlowCollectorLoki, FlowCollectorLoki.DeepCopy x = x) ∧
    (∀ x : Option FlowCollectorConsolePlugin, FlowCollectorConsolePlugin.DeepCopy x = x) ∧
    (∀ x : Option FlowCollectorExporter, FlowCollectorExporter.DeepCopy x = x) ∧
    (∀ x : Option FlowCollectorSpec, FlowCollectorSpec.DeepCopy x = x) ∧
    (∀ x : Option FlowCollectorStatus, FlowCollectorStatus.DeepCopy x = x) ∧
    (∀ x : Option FlowCollector, FlowCollector.DeepCopy x = x) ∧
    (∀ x : Option FlowCollectorList, FlowCollectorList.DeepCopy x = x) ∧
    (∀ fc : FlowCollector, FlowCollector.DeepCopyObject (some fc) = some fc) ∧
    (∀ fl : FlowCollectorList, FlowCollectorList.DeepCopyObject (some fl) = some fl) := by
  refine ⟨certificateReference_copy_eq, serverTLS_copy_eq, metricsServerConfig_copy_eq,
    clientTLS_copy_eq, clusterNetworkOperatorConfig_copy_eq, ovnKubernetesConfig_copy_eq,
    consolePluginPortConfig_copy_eq, quickFilter_copy_eq, flowCollectorHPA_copy_eq,
    flpMetrics_copy_eq, flowCollectorIPFIX_copy_eq, flowCollectorKafka_copy_eq,
    flowCollectorEBPF_copy_eq, flowCollectorAgent_copy_eq, flowCollectorFLP_copy_eq,
    flowCollectorLoki_copy_eq, flowCollectorConsolePlugin_copy_eq,
    flowCollectorExporter_copy_eq, flowCollectorSpec_copy_eq, flowCollectorStatus_copy_eq,
    flowCollector_copy_eq, flowCollectorList_copy_eq, ?_, ?_⟩
  · intro fc
    simp [FlowCollector.DeepCopyObject, flowCollector_copy_eq (some fc)]
  · intro fl
    simp [FlowCollectorList.DeepCopyObject, flowCollectorList_copy_eq (some fl)]

end V1Alpha1
